import Mathlib

/-!
Shallow embedding of `src/main.go` (package main of Heidelberger/update).

The program is a linear self-update routine.  Effectful library calls
(HTTP, gzip, tar, temp files, chmod, rename) are modelled by an oracle
`World` that fixes the outcome of each step, and the procedures are pure
functions from that oracle to a result paired with the ordered trace of
observable events (console prints, the HTTP request, and filesystem
operations).  A small filesystem interpretation `applyEvents` lets frame
properties ("the original executable is unchanged") be stated about the
trace.
-/

namespace Update

/-- `infos` struct of main.go: repository owner, application name, version. -/
structure Infos where
  AppRepoOwner : String
  AppName : String
  AppVersion : String
deriving Repr, DecidableEq

/-- `newInfos` of main.go. -/
def newInfos (owner name ver : String) : Infos :=
  { AppRepoOwner := owner, AppName := name, AppVersion := ver }

/-- `binaryChmodValue = 0o755` of main.go. -/
def binaryChmodValue : Nat := 0o755

/-- The four error types of main.go (DownloadError, ImportError,
GenerateError, DeleteError), each carrying a `Message` string. -/
inductive GoError where
  | DownloadError (Message : String)
  | ImportError (Message : String)
  | GenerateError (Message : String)
  | DeleteError (Message : String)
deriving Repr, DecidableEq

/-- The `Error()` method of each error type of main.go:
`fmt.Sprintf("{kind} error: %s", e.Message)`. -/
def GoError.errorString : GoError → String
  | .DownloadError m => "download error: " ++ m
  | .ImportError m => "import error: " ++ m
  | .GenerateError m => "generate error: " ++ m
  | .DeleteError m => "delete error: " ++ m

/-! ### Go `path` package, as used by `downloadBinary` (path.Dir) -/

/-- Split a character list on `'/'` (the slash-separated elements of a
path, empty elements included), as Go's element scan of `path.Clean`
sees them. -/
def splitSlash : List Char → List (List Char)
  | [] => [[]]
  | c :: cs =>
    if c = '/' then [] :: splitSlash cs
    else
      match splitSlash cs with
      | [] => [[c]]
      | g :: gs => (c :: g) :: gs

/-- Join path elements with `'/'`. -/
def joinSlash : List (List Char) → List Char
  | [] => []
  | [e] => e
  | e :: es => e ++ '/' :: joinSlash es

/-- The element-processing loop of Go `path.Clean`, over the slash-separated
elements of the path.  `acc` is the output stack, most recent element first.
Empty and `"."` elements are dropped; `".."` pops a previous element when one
is available, is dropped at the root when `rooted`, and is kept otherwise. -/
def cleanLoop (rooted : Bool) : List (List Char) → List (List Char) → List (List Char)
  | acc, [] => acc
  | acc, e :: rest =>
    if e = [] ∨ e = ['.'] then cleanLoop rooted acc rest
    else if e = ['.', '.'] then
      match acc with
      | [] => if rooted then cleanLoop rooted [] rest else cleanLoop rooted [['.', '.']] rest
      | top :: tl =>
        if top = ['.', '.'] then cleanLoop rooted (['.', '.'] :: top :: tl) rest
        else cleanLoop rooted tl rest
    else cleanLoop rooted (e :: acc) rest

/-- Go `path.Clean`. -/
def pathClean (p : String) : String :=
  if p = "" then "."
  else
    let cs := p.toList
    let rooted : Bool := match cs with | '/' :: _ => true | _ => false
    let elems := (cleanLoop rooted [] (splitSlash cs)).reverse
    let joined := joinSlash elems
    if rooted then String.mk ('/' :: joined)
    else if joined = [] then "." else String.mk joined

/-- Go `path.Dir`: everything up to and including the final slash, cleaned.
(`path.Split` keeps the trailing slash; a path with no slash has dir `"."`.) -/
def pathDir (p : String) : String :=
  pathClean (String.mk ((p.toList.reverse.dropWhile (fun c => c ≠ '/')).reverse))

/-- Whether the last character of `s` is the path separator (Go
`os.IsPathSeparator(dir[len(dir)-1])` guarded by `len(dir) > 0`). -/
def lastIsSlash (s : String) : Bool :=
  match s.toList.getLast? with
  | some c => c = '/'
  | none => false

/-- `joinPath` as used by Go `os.CreateTemp`: insert a separator unless the
directory already ends in one. -/
def joinPath (dir name : String) : String :=
  if lastIsSlash dir then dir ++ name else dir ++ "/" ++ name

/-! ### Oracle for the effectful steps of `downloadBinary` -/

/-- Oracle fixing the outcome of every effectful library call made by
`downloadBinary`, in the order the Go code performs them:

* `newRequestErr` — error of `http.NewRequestWithContext` (checked);
* `doErr` — error of `client.Do` (checked);
* `gzipHeaderOk` — whether `gzip.NewReader` succeeds.  Go's `gzip.NewReader`
  reads the gzip header eagerly and returns `(nil, err)` on a malformed
  header; main.go discards that error with `_`, so on failure the
  `*gzip.Reader` is nil and the first read through it (inside
  `tarReader.Next()`) dereferences a nil pointer;
* `tarNextErr` — error of `tarReader.Next()` when the gzip reader is valid
  (this is also where lazily-surfacing gzip body errors appear, since
  `Next` reads from the gzip stream);
* `execPath`, `execPathErr` — the two return values of `osext.Executable()`;
  main.go discards the error with `_` and uses `execPath` regardless;
* `tempSuffix` — the unique random suffix chosen by `os.CreateTemp` (the
  app name contains no `*`, so the suffix is appended to the pattern);
* `createTempErr` — error of `os.CreateTemp` (checked);
* `entryBytes` — bytes of the first archive entry, written by a successful
  `io.Copy`; `partBytes` — the bytes written before a failing `io.Copy`
  stops; `copyErr` — error of `io.Copy` (checked);
* `chmodErr` — error of `file.Chmod` (checked);
* `renameErr` — error of `os.Rename` (checked). -/
structure World where
  newRequestErr : Option String
  doErr : Option String
  gzipHeaderOk : Bool
  tarNextErr : Option String
  execPath : String
  execPathErr : Option String
  tempSuffix : String
  createTempErr : Option String
  entryBytes : List Nat
  partBytes : List Nat
  copyErr : Option String
  chmodErr : Option String
  renameErr : Option String
deriving Repr, DecidableEq

/-- Observable events of one run, in order: console prints, the HTTP
request, and the filesystem operations performed by `downloadBinary`.
Filesystem events are recorded when the operation takes effect:
`createTemp dir pfx p` records creation of the temp file at path `p` in
directory `dir` with name pattern `pfx`; `write p bs` records the bytes
present in `p` after the copy (full on success, partial on a failed copy);
`chmod`/`rename` are recorded only when they succeed. -/
inductive Event where
  | print (line : String)
  | httpGet (uri : String)
  | gzipOpen
  | tarNext
  | createTemp (dir pfx p : String)
  | write (p : String) (bytes : List Nat)
  | chmod (p : String) (mode : Nat)
  | rename (src dst : String)
deriving Repr, DecidableEq

/-- Result of `downloadBinary`: a normal return (`ok` for nil error,
`err e` for a non-nil error), or `crash` for a Go runtime panic
(nil-pointer dereference). -/
inductive DlResult where
  | ok
  | err (e : GoError)
  | crash
deriving Repr, DecidableEq

/-- The path of the temporary file created by `os.CreateTemp(originalPath,
info.AppName)` in `downloadBinary`: the executable's directory joined with
the app name followed by the implementation-chosen unique suffix. -/
def tmpFilePath (info : Infos) (w : World) : String :=
  joinPath (pathDir w.execPath) (info.AppName ++ w.tempSuffix)

/-- `downloadBinary(uri, info)` of main.go, step by step:
print, build request, `client.Do`, `gzip.NewReader` (error discarded),
print, `tar.NewReader`/`Next`, `osext.Executable` (error discarded),
`path.Dir`, `os.CreateTemp`, `io.Copy`, `file.Chmod(0o755)`, `os.Rename`.
Each checked failure returns `DownloadError{Message: err.Error()}`
immediately.  When `gzip.NewReader` failed, the nil reader is still handed
to `tar.NewReader`, and `tarReader.Next()` panics on the nil dereference. -/
def downloadBinary (uri : String) (info : Infos) (w : World) : DlResult × List Event :=
  let tr0 : List Event := [.print " -> Download..."]
  match w.newRequestErr with
  | some m => (.err (.DownloadError m), tr0)
  | none =>
    let tr1 := tr0 ++ [.httpGet uri]
    match w.doErr with
    | some m => (.err (.DownloadError m), tr1)
    | none =>
      let tr2 := tr1 ++ [.gzipOpen, .print " -> Extract...", .tarNext]
      if !w.gzipHeaderOk then (.crash, tr2)
      else
        match w.tarNextErr with
        | some m => (.err (.DownloadError m), tr2)
        | none =>
          let dir := pathDir w.execPath
          match w.createTempErr with
          | some m => (.err (.DownloadError m), tr2)
          | none =>
            let p := tmpFilePath info w
            let tr3 := tr2 ++ [.createTemp dir info.AppName p]
            match w.copyErr with
            | some m => (.err (.DownloadError m), tr3 ++ [.write p w.partBytes])
            | none =>
              let tr4 := tr3 ++ [.write p w.entryBytes]
              match w.chmodErr with
              | some m => (.err (.DownloadError m), tr4)
              | none =>
                let tr5 := tr4 ++ [.chmod p binaryChmodValue]
                match w.renameErr with
                | some m => (.err (.DownloadError m), tr5)
                | none => (.ok, tr5 ++ [.rename p w.execPath])

/-! ### Release lookup collaborator and `Execute` -/

/-- `grc.Asset`: the two fields main.go reads. -/
structure Asset where
  Name : String
  BrowserDownloadURL : String
deriving Repr, DecidableEq

/-- `grc.Release`: the two fields main.go reads. -/
structure Release where
  TagName : String
  Assets : List Asset
deriving Repr, DecidableEq

/-- The three return values of `grc.Check`; main.go discards the error
with `_`. -/
structure CheckResult where
  hasUpdate : Bool
  release : Release
  checkErr : Option String
deriving Repr, DecidableEq

/-- `buildFilename(version, info)` of main.go:
`fmt.Sprintf("%s-%s-%s-%s.tar.gz", info.AppName, version, runtime.GOOS,
runtime.GOARCH)`, with the ambient GOOS/GOARCH passed explicitly. -/
def buildFilename (version : String) (info : Infos) (goos goarch : String) : String :=
  info.AppName ++ "-" ++ version ++ "-" ++ goos ++ "-" ++ goarch ++ ".tar.gz"

/-- The asset-selection loop of `Execute`: scan the asset list in order and
take the first asset whose `Name` equals the expected filename (`break` on
the first hit). -/
def selectAsset (expected : String) : List Asset → Option Asset
  | [] => none
  | a :: rest => if a.Name = expected then some a else selectAsset expected rest

/-- The up-to-date message printed by `Execute`
(`"Your %s is up-to-date. \\o/\n"`). -/
def upToDateMsg (info : Infos) : String :=
  "Your " ++ info.AppName ++ " is up-to-date. \\o/"

/-- The final message printed by `Execute`
(`"Now you have a fresh new %s \\o/\n"`). -/
def successMsg (info : Infos) : String :=
  "Now you have a fresh new " ++ info.AppName ++ " \\o/"

/-- Whether `Execute` returned normally or the process crashed because a
panic escaped `downloadBinary`. -/
inductive ExecOutcome where
  | normal
  | crashed
deriving Repr, DecidableEq

/-- `Execute(info)` of main.go.  The result of `grc.Check` is supplied as
`chk` (its error member is discarded by the code); the outcomes of the
effectful download steps are supplied by `w`.  Returns the outcome and the
ordered trace of events.  If `hasUpdate` is false, or no asset name equals
the expected filename, it prints the up-to-date message and returns.
Otherwise it runs `downloadBinary` on the selected asset's URL, prints
`"Error: {message}"` if that returned a non-nil error, and prints the
success message; a panic inside `downloadBinary` propagates. -/
def Execute (info : Infos) (goos goarch : String) (chk : CheckResult) (w : World) :
    ExecOutcome × List Event :=
  if !chk.hasUpdate then (.normal, [.print (upToDateMsg info)])
  else
    match selectAsset (buildFilename chk.release.TagName info goos goarch) chk.release.Assets with
    | none => (.normal, [.print (upToDateMsg info)])
    | some a =>
      match downloadBinary a.BrowserDownloadURL info w with
      | (.ok, tr) => (.normal, tr ++ [.print (successMsg info)])
      | (.err e, tr) =>
        (.normal, tr ++ [.print ("Error: " ++ e.errorString), .print (successMsg info)])
      | (.crash, tr) => (.crashed, tr)

/-! ### Filesystem interpretation of traces -/

/-- A file on disk: content bytes and permission mode. -/
structure FileData where
  content : List Nat
  mode : Nat
deriving Repr, DecidableEq

/-- A filesystem: a partial map from paths to files. -/
def FS : Type := String → Option FileData

/-- Point update of a filesystem. -/
def fsSet (fs : FS) (p : String) (d : Option FileData) : FS :=
  fun q => if q = p then d else fs q

/-- Effect of one event on the filesystem.  `os.CreateTemp` creates an
empty file with mode `0o600`; `write` sets the file's content; `chmod`
sets its mode; `rename src dst` moves the file at `src` onto `dst`.
Prints, the HTTP request, and the stream operations touch no file. -/
def applyEvent (fs : FS) : Event → FS
  | .createTemp _ _ p => fsSet fs p (some { content := [], mode := 0o600 })
  | .write p bs =>
    match fs p with
    | some d => fsSet fs p (some { content := bs, mode := d.mode })
    | none => fsSet fs p (some { content := bs, mode := 0o600 })
  | .chmod p m =>
    match fs p with
    | some d => fsSet fs p (some { content := d.content, mode := m })
    | none => fs
  | .rename src dst =>
    if src = dst then fs else fsSet (fsSet fs dst (fs src)) src none
  | _ => fs

/-- Effect of a trace on the filesystem, applied in order. -/
def applyEvents (fs : FS) (tr : List Event) : FS :=
  tr.foldl applyEvent fs

/-! ### Concrete fixtures used to instantiate the theorems -/

/-- The `infos` value built by `main()`: owner "Heidelberger", app "update",
version "v1.0.0". -/
def info0 : Infos := newInfos "Heidelberger" "update" "v1.0.0"

/-- A run in which every effectful step succeeds. -/
def w0 : World where
  newRequestErr := none
  doErr := none
  gzipHeaderOk := true
  tarNextErr := none
  execPath := "/usr/local/bin/update"
  execPathErr := none
  tempSuffix := "123456789"
  createTempErr := none
  entryBytes := [77, 90, 1, 2, 3]
  partBytes := [77]
  copyErr := none
  chmodErr := none
  renameErr := none

/-- A run in which the HTTP request fails. -/
def wDoErr : World := { w0 with doErr := some "connection refused" }

/-- A run in which the response body has an invalid gzip header (for
example an HTML error page), so `gzip.NewReader` fails. -/
def wBadGzip : World := { w0 with gzipHeaderOk := false }

/-- A run in which `tarReader.Next()` fails (empty archive). -/
def wEmptyTar : World := { w0 with tarNextErr := some "unexpected EOF" }

/-- A run in which `osext.Executable()` reports an error. -/
def wExecErr : World := { w0 with execPathErr := some "lookup failed" }

/-- A run in which the copy into the temporary file fails midway. -/
def wCopyFail : World := { w0 with copyErr := some "disk full" }

/-- The empty filesystem. -/
def fs0 : FS := fun _ => none

/-- A release-check answer with an update whose asset list contains the
asset expected on linux/amd64. -/
def chkUpd : CheckResult where
  hasUpdate := true
  release :=
    { TagName := "v1.2.0"
      Assets := [{ Name := "update-v1.2.0-linux-amd64.tar.gz"
                   BrowserDownloadURL := "http://u" }] }
  checkErr := none

/-! ### Helper lemmas shared by several theorems -/

/-- If `downloadBinary` returns a nil error, every effectful step
succeeded. -/
theorem downloadBinary_ok_inv (uri : String) (info : Infos) (w : World)
    (h : (downloadBinary uri info w).1 = .ok) :
    w.newRequestErr = none ∧ w.doErr = none ∧ w.gzipHeaderOk = true ∧
    w.tarNextErr = none ∧ w.createTempErr = none ∧ w.copyErr = none ∧
    w.chmodErr = none ∧ w.renameErr = none := by
  obtain ⟨f1, f2, f3, f4, f5, f6, f7, f8, f9, f10, f11, f12, f13⟩ := w
  cases f1 <;> cases f2 <;> cases f3 <;> cases f4 <;> cases f8 <;>
    cases f11 <;> cases f12 <;> cases f13 <;>
    simp_all [downloadBinary]

/-- If no asset name equals the expected one, the selection loop finds
nothing. -/
theorem selectAsset_eq_none (expected : String) (l : List Asset)
    (h : ∀ a ∈ l, a.Name ≠ expected) : selectAsset expected l = none := by
  induction l with
  | nil => rfl
  | cons a rest ih =>
    have ha : a.Name ≠ expected := h a (by simp)
    simp only [selectAsset, if_neg ha]
    exact ih fun b hb => h b (by simp [hb])

/-! ### Claim theorems -/

/-- C7: `buildFilename` is deterministic and pure: for every
`(appName, tag, os, arch)` it returns `"{appName}-{tag}-{os}-{arch}.tar.gz"`,
and in particular for appName "update", tag "v1.2.0", os "linux",
arch "amd64" it returns `"update-v1.2.0-linux-amd64.tar.gz"`. -/
theorem c7_buildFilename_pure :
    (∀ (version : String) (info : Infos) (goos goarch : String),
      buildFilename version info goos goarch =
        info.AppName ++ "-" ++ version ++ "-" ++ goos ++ "-" ++ goarch ++ ".tar.gz") ∧
    buildFilename "v1.2.0" info0 "linux" "amd64" = "update-v1.2.0-linux-amd64.tar.gz" :=
  ⟨fun _ _ _ _ => rfl, rfl⟩

/-- C5: whenever the release lookup reports `hasUpdate = false`, `Execute`
prints only the up-to-date message and returns: the whole trace is that one
print, so no asset selection outcome is observable, no network request and
no filesystem event occurs, and the filesystem is left unchanged. -/
theorem c5_no_update_prints_up_to_date (info : Infos) (goos goarch : String)
    (chk : CheckResult) (w : World) (h : chk.hasUpdate = false) :
    Execute info goos goarch chk w = (.normal, [.print (upToDateMsg info)]) ∧
    (∀ fs : FS, ∀ p, applyEvents fs (Execute info goos goarch chk w).2 p = fs p) := by
  constructor
  · simp [Execute, h]
  · intro fs p
    simp [Execute, h, applyEvents, applyEvent]

/-- Witness for C5 at a concrete no-update check result. -/
theorem c5_witness :
    Execute info0 "linux" "amd64" ⟨false, ⟨"v1.2.0", []⟩, none⟩ w0 =
      (.normal, [.print (upToDateMsg info0)]) :=
  (c5_no_update_prints_up_to_date info0 "linux" "amd64"
    ⟨false, ⟨"v1.2.0", []⟩, none⟩ w0 rfl).1

/-- C6: when no asset name equals the expected filename, `Execute` behaves
identically to the `hasUpdate = false` case — the same single up-to-date
print and nothing else; and selection is by exact string equality with the
first match winning: a list headed by a matching asset selects that head. -/
theorem c6_no_matching_asset (info : Infos) (goos goarch : String)
    (chk : CheckResult) (w : World)
    (h : ∀ a ∈ chk.release.Assets,
      a.Name ≠ buildFilename chk.release.TagName info goos goarch) :
    Execute info goos goarch chk w =
      Execute info goos goarch { chk with hasUpdate := false } w ∧
    Execute info goos goarch chk w = (.normal, [.print (upToDateMsg info)]) ∧
    (∀ (x : Asset) (xs : List Asset) (expected : String),
      x.Name = expected → selectAsset expected (x :: xs) = some x) := by
  have hsel := selectAsset_eq_none
    (buildFilename chk.release.TagName info goos goarch) chk.release.Assets h
  refine ⟨?_, ?_, ?_⟩
  · cases hu : chk.hasUpdate <;> simp [Execute, hu, hsel]
  · cases hu : chk.hasUpdate <;> simp [Execute, hu, hsel]
  · intro x xs expected hx
    simp [selectAsset, hx]

/-- Witness for C6 at a concrete release whose only asset has a
non-matching name. -/
theorem c6_witness :
    Execute info0 "linux" "amd64"
      ⟨true, ⟨"v1.2.0", [⟨"update-v1.2.0-darwin-arm64.tar.gz", "http://u"⟩]⟩, none⟩ w0 =
      (.normal, [.print (upToDateMsg info0)]) :=
  (c6_no_matching_asset info0 "linux" "amd64"
    ⟨true, ⟨"v1.2.0", [⟨"update-v1.2.0-darwin-arm64.tar.gz", "http://u"⟩]⟩, none⟩ w0
    (by intro a ha; simp at ha; subst ha; decide)).2.1

/-- C4: when the archive stream has no entry (`tarReader.Next()` fails on
reaching it), `downloadBinary` returns a Download error; the trace shows no
temporary file was created and no rename was performed, and every file of
every filesystem — in particular the original executable — is untouched. -/
theorem c4_empty_archive (uri : String) (info : Infos) (w : World) (m : String)
    (h1 : w.newRequestErr = none) (h2 : w.doErr = none)
    (h3 : w.gzipHeaderOk = true) (h4 : w.tarNextErr = some m) :
    downloadBinary uri info w = (.err (.DownloadError m),
      [.print " -> Download...", .httpGet uri, .gzipOpen,
       .print " -> Extract...", .tarNext]) ∧
    (∀ d pfx p, Event.createTemp d pfx p ∉ (downloadBinary uri info w).2) ∧
    (∀ s d, Event.rename s d ∉ (downloadBinary uri info w).2) ∧
    (∀ fs : FS, ∀ p, applyEvents fs (downloadBinary uri info w).2 p = fs p) := by
  refine ⟨?_, ?_, ?_, ?_⟩
  · simp [downloadBinary, h1, h2, h3, h4]
  · intro d pfx p
    simp [downloadBinary, h1, h2, h3, h4]
  · intro s d
    simp [downloadBinary, h1, h2, h3, h4]
  · intro fs p
    simp [downloadBinary, h1, h2, h3, h4, applyEvents, applyEvent]

/-- Witness for C4 at a concrete empty-archive run. -/
theorem c4_witness :
    downloadBinary "http://u" info0 wEmptyTar =
      (.err (.DownloadError "unexpected EOF"),
       [.print " -> Download...", .httpGet "http://u", .gzipOpen,
        .print " -> Extract...", .tarNext]) :=
  (c4_empty_archive "http://u" info0 wEmptyTar "unexpected EOF" rfl rfl rfl rfl).1

/-- C8: on the success path (nil error returned), `downloadBinary`'s
filesystem steps happen in exactly this order: the temporary file is
created in the executable's directory with the app name as its name
pattern, its content is written, its mode is set to `0o755`, and only then
is it renamed onto the executable's path — so chmod precedes the rename. -/
theorem c8_success_path_order (uri : String) (info : Infos) (w : World)
    (h : (downloadBinary uri info w).1 = .ok) :
    downloadBinary uri info w =
      (.ok, [.print " -> Download...", .httpGet uri, .gzipOpen,
             .print " -> Extract...", .tarNext,
             .createTemp (pathDir w.execPath) info.AppName (tmpFilePath info w),
             .write (tmpFilePath info w) w.entryBytes,
             .chmod (tmpFilePath info w) binaryChmodValue,
             .rename (tmpFilePath info w) w.execPath]) := by
  obtain ⟨h1, h2, h3, h4, h5, h6, h7, h8⟩ := downloadBinary_ok_inv uri info w h
  simp [downloadBinary, tmpFilePath, h1, h2, h3, h4, h5, h6, h7, h8]

/-- Witness for C8 at a concrete all-successful run. -/
theorem c8_witness :
    downloadBinary "http://u" info0 w0 =
      (.ok, [.print " -> Download...", .httpGet "http://u", .gzipOpen,
             .print " -> Extract...", .tarNext,
             .createTemp (pathDir w0.execPath) info0.AppName (tmpFilePath info0 w0),
             .write (tmpFilePath info0 w0) w0.entryBytes,
             .chmod (tmpFilePath info0 w0) binaryChmodValue,
             .rename (tmpFilePath info0 w0) w0.execPath]) :=
  c8_success_path_order "http://u" info0 w0 rfl

/-- C9 (code evaluated at the failing input): with an invalid gzip header,
`gzip.NewReader`'s open-time error is discarded, the nil reader is handed
to the tar reader, and the first read (`tarReader.Next()`) crashes on a nil
dereference instead of returning a Download-class error. -/
theorem c9_gzip_header_failure_crashes :
    downloadBinary "http://u" info0 wBadGzip =
      (.crash, [.print " -> Download...", .httpGet "http://u", .gzipOpen,
                .print " -> Extract...", .tarNext]) := rfl

/-- C1: when the copy into the temporary file fails, no rename event ever
occurs and the file at the running executable's original path is unchanged
(the temporary file is fresh, so its path differs from the executable's);
and a rename occurs only in runs whose copy succeeded. -/
theorem c1_copy_failure_frame (uri : String) (info : Infos) (w : World)
    (hne : w.execPath ≠ tmpFilePath info w) :
    (∀ m, w.copyErr = some m →
      (∀ s d, Event.rename s d ∉ (downloadBinary uri info w).2) ∧
      (∀ fs : FS,
        applyEvents fs (downloadBinary uri info w).2 w.execPath = fs w.execPath)) ∧
    (∀ s d, Event.rename s d ∈ (downloadBinary uri info w).2 → w.copyErr = none) := by
  cases h1 : w.newRequestErr <;> cases h2 : w.doErr <;> cases h3 : w.gzipHeaderOk <;>
    cases h4 : w.tarNextErr <;> cases h5 : w.createTempErr <;> cases h6 : w.copyErr <;>
    simp_all [downloadBinary, applyEvents, applyEvent, fsSet]

/-- Witness for C1 at a concrete failed-copy run: no rename in the trace,
and the executable's path maps to the same file before and after. -/
theorem c1_witness :
    Event.rename (tmpFilePath info0 wCopyFail) wCopyFail.execPath ∉
      (downloadBinary "http://u" info0 wCopyFail).2 ∧
    applyEvents fs0 (downloadBinary "http://u" info0 wCopyFail).2 wCopyFail.execPath =
      fs0 wCopyFail.execPath :=
  ⟨((c1_copy_failure_frame "http://u" info0 wCopyFail (by decide)).1
      "disk full" rfl).1 _ _,
   ((c1_copy_failure_frame "http://u" info0 wCopyFail (by decide)).1
      "disk full" rfl).2 fs0⟩

/-- C10: `downloadBinary` discards the error of `osext.Executable()`: its
result is identical whether or not path resolution reported an error, so a
resolution failure is never returned to the caller; and on a nil-error run
the temporary file is created in, and the rename targets, whatever path
value resolution returned. -/
theorem c10_exec_path_error_discarded (uri : String) (info : Infos) (w : World)
    (m : String) :
    downloadBinary uri info { w with execPathErr := some m } =
      downloadBinary uri info { w with execPathErr := none } ∧
    ((downloadBinary uri info w).1 = .ok →
      Event.createTemp (pathDir w.execPath) info.AppName (tmpFilePath info w) ∈
        (downloadBinary uri info w).2 ∧
      Event.rename (tmpFilePath info w) w.execPath ∈ (downloadBinary uri info w).2) := by
  constructor
  · rfl
  · intro h
    obtain ⟨h1, h2, h3, h4, h5, h6, h7, h8⟩ := downloadBinary_ok_inv uri info w h
    simp [downloadBinary, tmpFilePath, h1, h2, h3, h4, h5, h6, h7, h8]

/-- Witness for C10 at a concrete run whose path resolution fails: the run
is indistinguishable from the error-free one and still performs the
rename to the resolved path. -/
theorem c10_witness :
    downloadBinary "http://u" info0 wExecErr = downloadBinary "http://u" info0 w0 ∧
    Event.rename (tmpFilePath info0 wExecErr) wExecErr.execPath ∈
      (downloadBinary "http://u" info0 wExecErr).2 :=
  ⟨(c10_exec_path_error_discarded "http://u" info0 w0 "lookup failed").1,
   ((c10_exec_path_error_discarded "http://u" info0 wExecErr "lookup failed").2 rfl).2⟩

/-- C2 counterexample: two failures the claim says are wrapped and
returned are not.  An `osext.Executable()` failure changes nothing — the
run still returns a nil error — and an invalid gzip header makes the run
crash instead of returning a Download error, so `downloadBinary` does not
wrap every stage's failure and can panic. -/
theorem c2_counterexample :
    wExecErr.execPathErr = some "lookup failed" ∧
    downloadBinary "http://u" info0 wExecErr = downloadBinary "http://u" info0 w0 ∧
    (downloadBinary "http://u" info0 wExecErr).1 = .ok ∧
    (downloadBinary "http://u" info0 wBadGzip).1 = .crash :=
  ⟨rfl, rfl, rfl, rfl⟩

/-- C2 as amended: every error `downloadBinary` returns is Download-class,
and each of the seven checked stages (request construction, HTTP request,
tar entry read, temp-file creation, copy, chmod, rename) short-circuits on
failure, returning the wrapped message immediately with no further events;
the gzip-open and executable-path-resolution errors are discarded instead. -/
theorem c2_amended_checked_stage_errors (uri : String) (info : Infos) (w : World) :
    (∀ e, (downloadBinary uri info w).1 = .err e → ∃ m, e = .DownloadError m) ∧
    (∀ m, w.newRequestErr = some m →
      downloadBinary uri info w =
        (.err (.DownloadError m), [.print " -> Download..."])) ∧
    (∀ m, w.newRequestErr = none → w.doErr = some m →
      downloadBinary uri info w =
        (.err (.DownloadError m), [.print " -> Download...", .httpGet uri])) ∧
    (∀ m, w.newRequestErr = none → w.doErr = none → w.gzipHeaderOk = true →
      w.tarNextErr = some m →
      downloadBinary uri info w =
        (.err (.DownloadError m),
         [.print " -> Download...", .httpGet uri, .gzipOpen,
          .print " -> Extract...", .tarNext])) ∧
    (∀ m, w.newRequestErr = none → w.doErr = none → w.gzipHeaderOk = true →
      w.tarNextErr = none → w.createTempErr = some m →
      downloadBinary uri info w =
        (.err (.DownloadError m),
         [.print " -> Download...", .httpGet uri, .gzipOpen,
          .print " -> Extract...", .tarNext])) ∧
    (∀ m, w.newRequestErr = none → w.doErr = none → w.gzipHeaderOk = true →
      w.tarNextErr = none → w.createTempErr = none → w.copyErr = some m →
      downloadBinary uri info w =
        (.err (.DownloadError m),
         [.print " -> Download...", .httpGet uri, .gzipOpen,
          .print " -> Extract...", .tarNext,
          .createTemp (pathDir w.execPath) info.AppName (tmpFilePath info w),
          .write (tmpFilePath info w) w.partBytes])) ∧
    (∀ m, w.newRequestErr = none → w.doErr = none → w.gzipHeaderOk = true →
      w.tarNextErr = none → w.createTempErr = none → w.copyErr = none →
      w.chmodErr = some m →
      downloadBinary uri info w =
        (.err (.DownloadError m),
         [.print " -> Download...", .httpGet uri, .gzipOpen,
          .print " -> Extract...", .tarNext,
          .createTemp (pathDir w.execPath) info.AppName (tmpFilePath info w),
          .write (tmpFilePath info w) w.entryBytes])) ∧
    (∀ m, w.newRequestErr = none → w.doErr = none → w.gzipHeaderOk = true →
      w.tarNextErr = none → w.createTempErr = none → w.copyErr = none →
      w.chmodErr = none → w.renameErr = some m →
      downloadBinary uri info w =
        (.err (.DownloadError m),
         [.print " -> Download...", .httpGet uri, .gzipOpen,
          .print " -> Extract...", .tarNext,
          .createTemp (pathDir w.execPath) info.AppName (tmpFilePath info w),
          .write (tmpFilePath info w) w.entryBytes,
          .chmod (tmpFilePath info w) binaryChmodValue])) := by
  refine ⟨?_, ?_, ?_, ?_, ?_, ?_, ?_, ?_⟩
  · intro e he
    cases h1 : w.newRequestErr <;> cases h2 : w.doErr <;> cases h3 : w.gzipHeaderOk <;>
      cases h4 : w.tarNextErr <;> cases h5 : w.createTempErr <;> cases h6 : w.copyErr <;>
      cases h7 : w.chmodErr <;> cases h8 : w.renameErr <;>
      simp_all [downloadBinary] <;>
      exact ⟨_, he.symm⟩
  · intro m h1
    simp [downloadBinary, h1]
  · intro m h1 h2
    simp [downloadBinary, h1, h2]
  · intro m h1 h2 h3 h4
    simp [downloadBinary, h1, h2, h3, h4]
  · intro m h1 h2 h3 h4 h5
    simp [downloadBinary, h1, h2, h3, h4, h5]
  · intro m h1 h2 h3 h4 h5 h6
    simp [downloadBinary, tmpFilePath, h1, h2, h3, h4, h5, h6]
  · intro m h1 h2 h3 h4 h5 h6 h7
    simp [downloadBinary, tmpFilePath, h1, h2, h3, h4, h5, h6, h7]
  · intro m h1 h2 h3 h4 h5 h6 h7 h8
    simp [downloadBinary, tmpFilePath, h1, h2, h3, h4, h5, h6, h7, h8]

/-- Witness for the amended C2 at a concrete failed-HTTP-request run. -/
theorem c2_amended_witness :
    downloadBinary "http://u" info0 wDoErr =
      (.err (.DownloadError "connection refused"),
       [.print " -> Download...", .httpGet "http://u"]) :=
  (c2_amended_checked_stage_errors "http://u" info0 wDoErr).2.2.1
    "connection refused" rfl rfl

/-- C3 counterexample: a run that reaches the download step (the HTTP
request is in the trace) but on which `downloadBinary` panics (invalid
gzip header): the process crashes and the success message is never
printed, so the success message is not printed on every path that reaches
the download step. -/
theorem c3_counterexample :
    Execute info0 "linux" "amd64" chkUpd wBadGzip =
      (.crashed, [.print " -> Download...", .httpGet "http://u", .gzipOpen,
                  .print " -> Extract...", .tarNext]) ∧
    Event.httpGet "http://u" ∈ (Execute info0 "linux" "amd64" chkUpd wBadGzip).2 ∧
    Event.print (successMsg info0) ∉ (Execute info0 "linux" "amd64" chkUpd wBadGzip).2 := by
  refine ⟨rfl, by decide, by decide⟩

/-- C3 as amended: whenever `downloadBinary` returns (rather than
panicking), `Execute` prints the success message; in particular on a
non-nil error it prints `"Error: {message}"` and then the success
message. -/
theorem c3_amended_error_then_success (info : Infos) (goos goarch : String)
    (chk : CheckResult) (w : World) (a : Asset)
    (hu : chk.hasUpdate = true)
    (hs : selectAsset (buildFilename chk.release.TagName info goos goarch)
      chk.release.Assets = some a) :
    (∀ e tr, downloadBinary a.BrowserDownloadURL info w = (.err e, tr) →
      Execute info goos goarch chk w =
        (.normal,
         tr ++ [.print ("Error: " ++ e.errorString), .print (successMsg info)])) ∧
    (∀ tr, downloadBinary a.BrowserDownloadURL info w = (.ok, tr) →
      Execute info goos goarch chk w = (.normal, tr ++ [.print (successMsg info)])) := by
  constructor
  · intro e tr hd
    simp [Execute, hu, hs, hd]
  · intro tr hd
    simp [Execute, hu, hs, hd]

/-- Witness for the amended C3 at a concrete failed-download run: the
error line is printed and the success message still follows. -/
theorem c3_amended_witness :
    Execute info0 "linux" "amd64" chkUpd wDoErr =
      (.normal, [.print " -> Download...", .httpGet "http://u",
                 .print "Error: download error: connection refused",
                 .print (successMsg info0)]) :=
  (c3_amended_error_then_success info0 "linux" "amd64" chkUpd wDoErr
      ⟨"update-v1.2.0-linux-amd64.tar.gz", "http://u"⟩ rfl rfl).1
    (.DownloadError "connection refused")
    [.print " -> Download...", .httpGet "http://u"] rfl

end Update
